import Mathlib

/-!
Verification development for the LinkinSyncServer music chat backend.

The definitions below are shallow embeddings of the Go source:
strings are Lean `String`s manipulated through their character lists,
floating-point scores are rationals (all score arithmetic in the source
stays within ranges where `float64` comparison agrees with exact
rational comparison), `time.Now()` is an explicit `Nat` parameter, the
AI / lyrics collaborators are function parameters returning `Except`,
and JSON decoding of collaborator output is a function parameter
returning `Option`.  Go's randomized map iteration order is an explicit
`order : List String` parameter.
-/

namespace LinkinSync

/-! ## Go string primitives (package strings) -/

/-- `strings.Contains(s, sub)`: `sub` occurs as a contiguous substring of `s`. -/
def containsChars (sub : List Char) : List Char → Bool
  | [] => sub.isEmpty
  | c :: t => sub.isPrefixOf (c :: t) || containsChars sub t

/-- `strings.Contains` on `String`s. -/
def strContains (s sub : String) : Bool := containsChars sub.data s.data

/-- `strings.ToLower` (ASCII range; the queries and keyword tables are ASCII). -/
def strToLower (s : String) : String := ⟨s.data.map Char.toLower⟩

/-- `strings.HasPrefix` on `String`s. -/
def strStartsWith (s pre : String) : Bool := pre.data.isPrefixOf s.data

/-- `strings.HasSuffix` on `String`s. -/
def strEndsWith (s suf : String) : Bool := suf.data.isSuffixOf s.data

/-- Go slicing `s[n:]` (the sliced-off text is ASCII at every call site,
so byte and character counting agree). -/
def strDrop (s : String) (n : Nat) : String := ⟨s.data.drop n⟩

/-- Character class used by `strings.TrimSpace` (ASCII part of `unicode.IsSpace`). -/
def isGoSpace (c : Char) : Bool :=
  c = ' ' || c = '\t' || c = '\n' || c = '\x0b' || c = '\x0c' || c = '\r'

/-- Drop characters satisfying `p` from both ends of a character list. -/
def dropAround (p : Char → Bool) (l : List Char) : List Char :=
  ((l.dropWhile p).reverse.dropWhile p).reverse

/-- `strings.TrimSpace`. -/
def strTrimSpace (s : String) : String := ⟨dropAround isGoSpace s.data⟩

/-- `strings.Trim(s, cutset)`. -/
def strTrimCutset (s : String) (cutset : List Char) : String :=
  ⟨dropAround (fun c => cutset.contains c) s.data⟩

/-- `strings.TrimSuffix(s, suf)`. -/
def strTrimEnd (s suf : String) : String :=
  if strEndsWith s suf then ⟨s.data.take (s.data.length - suf.data.length)⟩ else s

/-- `strings.Split` on character lists, for a non-empty separator
`s0 :: ss` (the separator at the only call site is `" by "`).  `fuel` is a
structural-recursion bound: each step consumes at least one character, so
any `fuel` at least the input length never reaches the `0` case. -/
def splitChars (s0 : Char) (ss : List Char) : Nat → List Char → List Char → List (List Char)
  | _, [], acc => [acc.reverse]
  | 0, l, acc => [acc.reverse ++ l]
  | fuel + 1, c :: t, acc =>
    if (s0 :: ss).isPrefixOf (c :: t) then
      acc.reverse :: splitChars s0 ss fuel ((c :: t).drop (ss.length + 1)) []
    else
      splitChars s0 ss fuel t (c :: acc)

/-- `strings.Split(s, sep)` for non-empty `sep`. -/
def strSplit (s sep : String) : List String :=
  match sep.data with
  | [] => [s]
  | s0 :: ss => (splitChars s0 ss s.data.length s.data []).map (fun l => ⟨l⟩)

/-! ## Data model (server/models) -/

/-- `models.SpotifyTrack`. -/
structure SpotifyTrack where
  id : String := ""
  name : String := ""
  artist : String := ""
  album : String := ""
  previewURL : String := ""
deriving DecidableEq, Repr

/-- `models.UnifiedTrack`. -/
structure UnifiedTrack where
  id : String := ""
  name : String := ""
  artist : String := ""
  album : String := ""
  source : String := ""
  previewURL : String := ""
  externalURL : String := ""
  duration : Nat := 0
  imageURL : String := ""
deriving DecidableEq, Repr

/-- `models.FromSpotifyTrack`. -/
def FromSpotifyTrack (track : SpotifyTrack) : UnifiedTrack :=
  { id := track.id, name := track.name, artist := track.artist,
    album := track.album, source := "spotify", previewURL := track.previewURL }

/-- `models.MoodAnalysis`; the `float64` confidence is embedded as a rational. -/
structure MoodAnalysis where
  primaryMood : String
  moodScore : ℚ
  emotionTags : List String
deriving DecidableEq, Repr

/-- `models.SongQuery`. -/
structure SongQuery where
  query : String
  artist : String
deriving DecidableEq, Repr

/-- `models.MoodBasedRecommendation`. -/
structure MoodBasedRecommendation where
  track : UnifiedTrack
  matchReason : String
  moodScore : ℚ
deriving DecidableEq, Repr

/-- `models.MoodRecommendations`. -/
structure MoodRecommendations where
  fromLibrary : List MoodBasedRecommendation
  suggested : List MoodBasedRecommendation
deriving DecidableEq, Repr

/-- `models.ChatResponse`. -/
structure ChatResponse where
  answer : String := ""
  error : String := ""
  type : String := ""
  songQuery : Option SongQuery := none
  moodAnalysis : Option MoodAnalysis := none
  recommendations : Option MoodRecommendations := none
deriving DecidableEq, Repr

/-! ## Query classification (handlers/lyrics_handler.go) -/

/-- The fixed song-request patterns of `isSongRequestQuery`. -/
def songRequestPatterns : List String :=
  ["play ", "can you play", "find ", "search for",
   "put on ", "i want to hear", "i want to listen to",
   "show me ", "look for ", "get me "]

/-- `isSongRequestQuery`: the lowered query contains one of the request patterns. -/
def isSongRequestQuery (query : String) : Bool :=
  let lowerQuery := strToLower query
  songRequestPatterns.any (fun pattern => strContains lowerQuery pattern)

/-- The fixed current-song patterns of `isLyricsRelatedQuery`. -/
def lyricsPatterns : List String :=
  ["current song", "current track", "now playing", "playing now",
   "this song", "this track", "about the song", "about the track",
   "song mean", "track mean", "lyrics mean", "song about",
   "tell me about", "what does", "explain the", "meaning of"]

/-- `isLyricsRelatedQuery`: contains `"lyric"`, or one of the current-song patterns. -/
def isLyricsRelatedQuery (query : String) : Bool :=
  let lowerQuery := strToLower query
  if strContains lowerQuery "lyric" then true
  else lyricsPatterns.any (fun pattern => strContains lowerQuery pattern)

/-- The emotional keyword list of `containsEmotionalContent`. -/
def emotionalKeywords : List String :=
  ["feel", "feeling", "mood", "emotion", "sad", "happy", "angry", "upset",
   "depressed", "anxious", "lonely", "alone", "stressed", "overwhelmed",
   "excited", "joy", "love", "hate", "frustrated", "confused", "lost",
   "hurt", "broken", "empty", "hopeless", "worried", "scared", "afraid",
   "nervous", "calm", "peaceful", "nostalgic", "miss", "remember",
   "belong", "disconnected", "isolated", "abandoned", "rejected",
   "won", "victory", "celebrate", "celebration", "achievement", "accomplished",
   "tournament", "competition", "winning", "winner"]

/-- The personal-context indicators of `containsEmotionalContent`. -/
def personalIndicators : List String :=
  ["i ", "i\x27m", "i am", "me ", "my ", "feel", "feeling"]

/-- `containsEmotionalContent`: an emotional keyword occurs, and a
first or second person indicator occurs in the same lowered query. -/
def containsEmotionalContent (query : String) : Bool :=
  let lowerQuery := strToLower query
  emotionalKeywords.any (fun keyword =>
    strContains lowerQuery keyword &&
      personalIndicators.any (fun indicator => strContains lowerQuery indicator))

/-- The prefixes stripped from the song part in the `" by "` branch of
`extractSongRequest`. -/
def songPartPatterns : List String :=
  ["play ", "find ", "search for ", "put on ", "show me ", "look for ", "get me "]

/-- The prefix loop of the `" by "` branch: strip the first matching prefix
(`break` after the first hit), trimming surrounding space. -/
def stripLeadingPattern : List String → String → String
  | [], s => s
  | p :: ps, s =>
    if strStartsWith s p then strTrimSpace (strDrop s p.data.length)
    else stripLeadingPattern ps s

/-- The artist-less prefixes of `extractSongRequest`. -/
def songOnlyPatterns : List String :=
  ["play ", "find ", "search for ", "put on ",
   "show me ", "look for ", "get me ",
   "can you play ", "i want to hear ", "i want to listen to "]

/-- The cutset of `strings.Trim(song, "\x22\x27")`: a double and a single quote. -/
def quoteCutset : List Char := ['"', Char.ofNat 39]

/-- The song-only loop of `extractSongRequest`: first matching prefix whose
stripped-and-cleaned remainder is non-empty. -/
def findSongOnly : List String → String → Option (String × String)
  | [], _ => none
  | p :: ps, lowerQuery =>
    if strStartsWith lowerQuery p then
      let song := strTrimSpace (strDrop lowerQuery p.data.length)
      let song := strTrimCutset song quoteCutset
      let song := strTrimEnd song " please"
      let song := strTrimEnd song " song"
      if song ≠ "" then some (song, "") else findSongOnly ps lowerQuery
    else findSongOnly ps lowerQuery

/-- `extractSongRequest`: split out song title and artist from a song request. -/
def extractSongRequest (query : String) : String × String :=
  let lowerQuery := strToLower query
  let byBranch : Option (String × String) :=
    if strContains lowerQuery " by " then
      let parts := strSplit lowerQuery " by "
      if parts.length = 2 then
        let songPart := strTrimSpace (parts.getD 0 "")
        let artistPart := strTrimSpace (parts.getD 1 "")
        let songPart := stripLeadingPattern songPartPatterns songPart
        let songPart := strTrimCutset songPart quoteCutset
        let artistPart := strTrimCutset artistPart quoteCutset
        if songPart ≠ "" && artistPart ≠ "" then some (songPart, artistPart) else none
      else none
    else none
  match byBranch with
  | some r => r
  | none =>
    match findSongOnly songOnlyPatterns lowerQuery with
    | some r => r
    | none => (strTrimSpace query, "")

/-- `handleSongRequest`: build the `song_request` chat response. -/
def handleSongRequest (query : String) : ChatResponse :=
  let extracted := extractSongRequest query
  let songName := extracted.1
  let artist := extracted.2
  let responseMsg :=
    if artist ≠ "" then
      "I\x27m searching for \"" ++ songName ++ "\" by " ++ artist ++
        " in your playlists. Let me show you what I found!"
    else
      "I\x27m searching for \"" ++ songName ++
        "\" in your playlists. Let me show you what I found!"
  { answer := responseMsg, type := "song_request",
    songQuery := some { query := songName, artist := artist } }

/-- The intent a query is dispatched to by `processChatRequest`. -/
inductive Intent where
  | songRequest
  | moodQuery
  | lyricsQuery
  | general
deriving DecidableEq, Repr

/-- The dispatch cascade of `processChatRequest`, as an intent. -/
def classifyQuery (query : String) : Intent :=
  if isSongRequestQuery query then Intent.songRequest
  else if containsEmotionalContent query then Intent.moodQuery
  else if isLyricsRelatedQuery query then Intent.lyricsQuery
  else Intent.general

/-- `processChatRequest`, parameterized over the mood, lyrics and general
handlers (they call external collaborators); the song-request handler is pure
and embedded directly. -/
def processChatRequest (hMood hLyrics hGeneral : String → ChatResponse)
    (query : String) : ChatResponse :=
  if isSongRequestQuery query then handleSongRequest query
  else if containsEmotionalContent query then hMood query
  else if isLyricsRelatedQuery query then hLyrics query
  else hGeneral query

/-! ## Mood service (services/mood/interface.go, services/mood/service.go) -/

/-- `mood.MoodKeywords`, in source order.  The Go value is a map; iteration
order over it is randomized, so functions that range over it take an explicit
`order` parameter below. -/
def MoodKeywords : List (String × List String) :=
  [("sad", ["cry", "tears", "broken", "hurt", "pain", "lost", "miss", "gone", "alone", "empty"]),
   ("happy", ["joy", "smile", "laugh", "bright", "sunshine", "celebrate", "love", "wonderful", "amazing", "blessed"]),
   ("angry", ["rage", "fury", "hate", "mad", "pissed", "scream", "fight", "burn", "destroy", "revenge"]),
   ("lonely", ["alone", "nobody", "isolated", "forgotten", "abandoned", "solitary", "empty", "belong", "disconnected"]),
   ("anxious", ["worry", "fear", "nervous", "panic", "stress", "overwhelmed", "restless", "uncertain", "doubt"]),
   ("nostalgic", ["remember", "memories", "past", "used to", "once", "old days", "reminisce", "looking back", "childhood"]),
   ("energetic", ["pump", "hype", "energy", "power", "strength", "unstoppable", "fire", "ready", "go", "motivation"]),
   ("calm", ["peace", "quiet", "serene", "tranquil", "relax", "breathe", "gentle", "soft", "still", "harmony"])]

/-- `mood.RelatedMoods`, in source order. -/
def RelatedMoods : List (String × List String) :=
  [("sad", ["melancholic", "depressed", "sorrowful", "grief"]),
   ("happy", ["joyful", "excited", "cheerful", "elated"]),
   ("angry", ["frustrated", "bitter", "defiant", "aggressive"]),
   ("lonely", ["isolated", "disconnected", "yearning", "longing"]),
   ("anxious", ["worried", "tense", "uneasy", "stressed"]),
   ("nostalgic", ["sentimental", "wistful", "reflective", "bittersweet"]),
   ("energetic", ["pumped", "motivated", "dynamic", "vigorous"]),
   ("calm", ["peaceful", "relaxed", "meditative", "zen"])]

/-- The mood names, in the order the `MoodKeywords` table is written. -/
def moodNames : List String := MoodKeywords.map Prod.fst

/-- The keyword list of a mood (empty for a name outside the table). -/
def keywordsFor (mood : String) : List String := (MoodKeywords.lookup mood).getD []

/-- The related-mood list of a mood (empty for a name outside the table). -/
def relatedFor (mood : String) : List String := (RelatedMoods.lookup mood).getD []

/-- The keyword-hit count of `fallbackMoodDetection`: how many keywords of the
mood occur in the lowered message. -/
def matchCount (lowerMessage : String) (keywords : List String) : Nat :=
  (keywords.filter (fun keyword => strContains lowerMessage keyword)).length

/-- The score `matchCount / len(keywords)` of `fallbackMoodDetection`. -/
def moodScoreOf (lowerMessage mood : String) : ℚ :=
  (matchCount lowerMessage (keywordsFor mood) : ℚ) / ((keywordsFor mood).length : ℚ)

/-- The early-return condition of the `fallbackMoodDetection` loop body:
at least one keyword hit and a score strictly above `0.2`.  The score
comparison `hits / len > 0.2` is stated as `len < 5 * hits`, which is
equivalent over the positive keyword-table lengths; for the table sizes 9
and 10 the source's `float64` comparison agrees with this exact form (see
`moodQualifies_iff_score` below). -/
def moodQualifies (lowerMessage mood : String) : Bool :=
  decide (0 < matchCount lowerMessage (keywordsFor mood)) &&
    decide ((keywordsFor mood).length < 5 * matchCount lowerMessage (keywordsFor mood))

/-- The default analysis of `fallbackMoodDetection` when no mood qualifies. -/
def neutralFallback : MoodAnalysis :=
  { primaryMood := "calm", moodScore := 3/10, emotionTags := ["neutral", "uncertain"] }

/-- `fallbackMoodDetection`: return, for the first mood in iteration order
with a qualifying score, that mood with its score and related-mood tags;
otherwise the neutral default.  `order` is the iteration order of the Go
`range` over the `MoodKeywords` map (an arbitrary permutation of `moodNames`
on every call). -/
def fallbackMoodDetection (order : List String) (message : String) : MoodAnalysis :=
  match order.find? (fun mood => moodQualifies (strToLower message) mood) with
  | some mood =>
    { primaryMood := mood, moodScore := moodScoreOf (strToLower message) mood,
      emotionTags := relatedFor mood }
  | none => neutralFallback

/-- The mood-detection prompt of `DetectMood`. -/
def moodDetectionPrompt (message : String) : String :=
  "Analyze the following message for emotional content and mood. Return a JSON response with:\n" ++
  "- primary_mood: The main emotion detected (must be one of: sad, happy, angry, lonely, anxious, nostalgic, energetic, calm)\n" ++
  "- mood_score: Confidence score between 0 and 1\n" ++
  "- emotion_tags: Array of related emotions/themes\n\n" ++
  "Important: Respond ONLY with valid JSON, no additional text.\n\n" ++
  "User message: \"" ++ message ++ "\""

/-- `DetectMood`: ask the AI collaborator; on a collaborator error propagate
`failed to detect mood`; on success try to decode the JSON (`parseMood`,
the embedding of `json.Unmarshal` into `MoodAnalysis`), falling back to
`fallbackMoodDetection` when it does not parse. -/
def DetectMood (ai : String → Except String String)
    (parseMood : String → Option MoodAnalysis)
    (order : List String) (message : String) : Except String MoodAnalysis :=
  match ai (moodDetectionPrompt message) with
  | Except.error e => Except.error ("failed to detect mood: " ++ e)
  | Except.ok response =>
    match parseMood response with
    | some analysis => Except.ok analysis
    | none => Except.ok (fallbackMoodDetection order message)

/-- The double loop of `calculateMoodMatch` counting equal tag pairs. -/
def tagOverlapCount (userTags songTags : List String) : Nat :=
  (userTags.map (fun userTag => songTags.count userTag)).sum

/-- `calculateMoodMatch`: identical moods score `0.9 + 0.1 * songScore`,
related moods `0.7 + 0.2 * songScore`, overlapping tag sets
`0.5 + 0.3 * overlap / |userTags|`, anything else `0.2`. -/
def calculateMoodMatch (userMood songMood : MoodAnalysis) : ℚ :=
  if userMood.primaryMood = songMood.primaryMood then
    9/10 + songMood.moodScore * (1/10)
  else if (relatedFor userMood.primaryMood).contains songMood.primaryMood then
    7/10 + songMood.moodScore * (2/10)
  else if tagOverlapCount userMood.emotionTags songMood.emotionTags > 0 then
    1/2 + ((tagOverlapCount userMood.emotionTags songMood.emotionTags : ℚ) /
      (userMood.emotionTags.length : ℚ)) * (3/10)
  else 1/5

/-- The fixed reason strings of `generateMatchReason`. -/
def matchReasons : List (String × String) :=
  [("sad", "This song captures feelings of sadness and melancholy"),
   ("happy", "This uplifting song matches your positive energy"),
   ("angry", "This song channels frustration and intensity"),
   ("lonely", "This song explores themes of isolation and longing"),
   ("anxious", "This song reflects feelings of uncertainty and tension"),
   ("nostalgic", "This song brings back memories and reflection"),
   ("energetic", "This high-energy track matches your motivated mood"),
   ("calm", "This peaceful song promotes relaxation and tranquility")]

/-- `generateMatchReason`: the fixed reason for the mood, suffixed with up to
two themes. -/
def generateMatchReason (mood : String) (themes : List String) : String :=
  let themeStr :=
    match themes with
    | [] => ""
    | [t1] => t1
    | t1 :: t2 :: _ => t1 ++ " and " ++ t2
  let reason := (matchReasons.lookup mood).getD ""
  if themeStr ≠ "" then reason ++ " through themes of " ++ themeStr else reason

/-- `mood.LyricsWithMood`. -/
structure LyricsWithMood where
  lyrics : String
  moodAnalysis : MoodAnalysis
  themes : List String
deriving DecidableEq, Repr

/-- The JSON shape decoded by `GetLyricsWithMood` from the AI response. -/
structure LyricsAnalysisJSON where
  primaryMood : String
  moodScore : ℚ
  emotionTags : List String
  themes : List String
deriving DecidableEq, Repr

/-- The cache key of `GetLyricsWithMood`: lower-cased `"<name>-<artist>"`. -/
def cacheKey (trackName artistName : String) : String :=
  strToLower trackName ++ "-" ++ strToLower artistName

/-- The lyrics-analysis prompt of `GetLyricsWithMood`. -/
def lyricsAnalysisPrompt (lyrics : String) : String :=
  "Analyze the mood and themes of these song lyrics. Return a JSON response with:\n" ++
  "- primary_mood: The main emotion (must be one of: sad, happy, angry, lonely, anxious, nostalgic, energetic, calm)\n" ++
  "- mood_score: Confidence score between 0 and 1\n" ++
  "- emotion_tags: Array of related emotions\n" ++
  "- themes: Array of main themes in the song\n\n" ++
  "Important: Respond ONLY with valid JSON.\n\n" ++
  "Lyrics:\n" ++ lyrics

/-- The neutral record used when the AI lyrics analysis fails to parse. -/
def neutralAnalysisJSON : LyricsAnalysisJSON :=
  { primaryMood := "calm", moodScore := 1/2,
    emotionTags := ["uncertain"], themes := ["general"] }

/-- The service's lyrics cache: Go `map[string]*LyricsWithMood`, embedded as
an association list where insertion conses (lookup finds the newest binding,
matching map-overwrite semantics observationally). -/
structure MoodCache where
  entries : List (String × LyricsWithMood)
deriving DecidableEq, Repr

/-- `GetLyricsWithMood`, parameterized over the Genius collaborator, the AI
collaborator and the JSON decoding of the AI response; returns the result,
the updated cache and whether the lyrics provider was invoked. -/
def GetLyricsWithMood (genius : String → String → Except String String)
    (ai : String → Except String String)
    (parseAnalysis : String → Option LyricsAnalysisJSON)
    (cache : MoodCache) (trackName artistName : String) :
    Except String LyricsWithMood × MoodCache × Bool :=
  match cache.entries.lookup (cacheKey trackName artistName) with
  | some cached => (Except.ok cached, cache, false)
  | none =>
    match genius trackName artistName with
    | Except.error e => (Except.error ("failed to fetch lyrics: " ++ e), cache, true)
    | Except.ok lyrics =>
      match ai (lyricsAnalysisPrompt lyrics) with
      | Except.error e => (Except.error ("failed to analyze lyrics mood: " ++ e), cache, true)
      | Except.ok response =>
        let analysis := (parseAnalysis response).getD neutralAnalysisJSON
        let result : LyricsWithMood :=
          { lyrics := lyrics,
            moodAnalysis :=
              { primaryMood := analysis.primaryMood,
                moodScore := analysis.moodScore,
                emotionTags := analysis.emotionTags },
            themes := analysis.themes }
        (Except.ok result,
          { entries := (cacheKey trackName artistName, result) :: cache.entries }, true)

/-! ## MatchSongsToMood (services/mood/service.go)

The Go function fans candidate tracks out to goroutines bounded by a
semaphore of 5; each completed lookup appends a qualifying recommendation to
a shared slice under a mutex.  The embedding linearizes that: per-track
lyric/mood lookup is the `analyze` parameter (the composition of
`GetLyricsWithMood` with the fixed collaborators, `none` for a failed
lookup), tracks are processed in input order, and the loop's
`len(recommendations) >= limit` early exit is checked before each track. -/

/-- One candidate step of `MatchSongsToMood`: skip on lookup failure, and
append the recommendation when the match score clears `0.5`. -/
def gatherRecommendations (analyze : UnifiedTrack → Option LyricsWithMood)
    (userMood : MoodAnalysis) (limit : Nat) :
    List UnifiedTrack → List MoodBasedRecommendation → List MoodBasedRecommendation
  | [], acc => acc
  | track :: rest, acc =>
    if limit ≤ acc.length then acc
    else
      let acc' :=
        match analyze track with
        | none => acc
        | some lyricsData =>
          let matchScore := calculateMoodMatch userMood lyricsData.moodAnalysis
          if matchScore > 1/2 then
            acc ++ [{ track := track,
                      matchReason := generateMatchReason userMood.primaryMood lyricsData.themes,
                      moodScore := matchScore }]
          else acc
      gatherRecommendations analyze userMood limit rest acc'

/-- The body of the source's bubble-sort inner loop:
swap positions `i` and `j` when the score at `j` beats the score at `i`. -/
def swapIfGreater (a : Array MoodBasedRecommendation) (i j : Nat) :
    Array MoodBasedRecommendation :=
  if h : i < a.size ∧ j < a.size then
    if (a.get ⟨j, h.2⟩).moodScore > (a.get ⟨i, h.1⟩).moodScore then
      a.swap ⟨i, h.1⟩ ⟨j, h.2⟩
    else a
  else a

/-- The inner `j` loop of the source's bubble sort (`n` is the fixed slice
length; swaps preserve the size, so the bound check agrees with Go). -/
def bubbleInner (i n : Nat) (j : Nat) (a : Array MoodBasedRecommendation) :
    Array MoodBasedRecommendation :=
  if j < n then bubbleInner i n (j + 1) (swapIfGreater a i j) else a
termination_by n - j

/-- The outer `i` loop of the source's bubble sort. -/
def bubbleOuter (n : Nat) (i : Nat) (a : Array MoodBasedRecommendation) :
    Array MoodBasedRecommendation :=
  if i < n then bubbleOuter n (i + 1) (bubbleInner i n (i + 1) a) else a
termination_by n - i

/-- The source's descending bubble sort over the recommendation slice. -/
def sortRecommendations (recs : List MoodBasedRecommendation) :
    List MoodBasedRecommendation :=
  (bubbleOuter recs.length 0 (Array.mk recs)).toList

/-- `MatchSongsToMood`: gather qualifying matches, sort by score descending,
truncate to `limit`.  (The Go function's `error` result is always `nil`.) -/
def MatchSongsToMood (analyze : UnifiedTrack → Option LyricsWithMood)
    (userMood : MoodAnalysis) (userTracks : List UnifiedTrack) (limit : Nat) :
    List MoodBasedRecommendation :=
  let recommendations := gatherRecommendations analyze userMood limit userTracks []
  let sorted := sortRecommendations recommendations
  if limit < sorted.length then sorted.take limit else sorted

/-! ## MusicStateStore (server/models/play_history.go, now-playing model,
repositories/music_repository.go) -/

/-- `models.PlayHistoryItem`; `played_at` is the explicit clock value. -/
structure PlayHistoryItem where
  trackID : String
  trackName : String
  artist : String
  album : String
  source : String
  playedAt : Nat
deriving DecidableEq, Repr

/-- `models.PlayHistory` (the mutex guards concurrent access; the embedded
state is the guarded data). -/
structure PlayHistory where
  items : List PlayHistoryItem
  maxItems : Nat
deriving DecidableEq, Repr

/-- `models.NewPlayHistory`. -/
def NewPlayHistory (maxItems : Nat) : PlayHistory :=
  { items := [], maxItems := maxItems }

/-- The history snapshot `AddUnified` builds from a track at time `now`. -/
def mkHistoryItem (track : UnifiedTrack) (now : Nat) : PlayHistoryItem :=
  { trackID := track.id, trackName := track.name, artist := track.artist,
    album := track.album, source := track.source, playedAt := now }

/-- `PlayHistory.AddUnified`: prepend the new item, then truncate to
`maxItems` when the bound is exceeded. -/
def PlayHistory.AddUnified (ph : PlayHistory) (track : UnifiedTrack) (now : Nat) :
    PlayHistory :=
  let items := mkHistoryItem track now :: ph.items
  { items := if ph.maxItems < items.length then items.take ph.maxItems else items,
    maxItems := ph.maxItems }

/-- `PlayHistory.Add`: add a Spotify track by converting it first. -/
def PlayHistory.Add (ph : PlayHistory) (track : SpotifyTrack) (now : Nat) : PlayHistory :=
  ph.AddUnified (FromSpotifyTrack track) now

/-- `PlayHistory.GetItems` returns a defensive copy of the items. -/
def PlayHistory.GetItems (ph : PlayHistory) : List PlayHistoryItem := ph.items

/-- `models.NowPlaying` (the mutex guards concurrent access; the embedded
state is the guarded data, with the update time an explicit `Nat`). -/
structure NowPlaying where
  trackID : String
  trackName : String
  artist : String
  album : String
  lyrics : String
  updatedAt : Nat
deriving DecidableEq, Repr

/-- `models.NewNowPlaying`. -/
def NewNowPlaying : NowPlaying :=
  { trackID := "", trackName := "", artist := "", album := "", lyrics := "", updatedAt := 0 }

/-- `NowPlaying.Update`: replace the identity fields from the track, reset
the lyrics for the new track, stamp the update time. -/
def NowPlaying.Update (_np : NowPlaying) (track : SpotifyTrack) (now : Nat) : NowPlaying :=
  { trackID := track.id, trackName := track.name, artist := track.artist,
    album := track.album, lyrics := "", updatedAt := now }

/-- `NowPlaying.UpdateLyrics`: set the lyrics. -/
def NowPlaying.UpdateLyrics (np : NowPlaying) (lyrics : String) : NowPlaying :=
  { np with lyrics := lyrics }

/-- `NowPlaying.Get`: a field-by-field copy of the current state. -/
def NowPlaying.Get (np : NowPlaying) : NowPlaying :=
  { trackID := np.trackID, trackName := np.trackName, artist := np.artist,
    album := np.album, lyrics := np.lyrics, updatedAt := np.updatedAt }

/-- `NowPlaying.IsEmpty`. -/
def NowPlaying.IsEmpty (np : NowPlaying) : Bool :=
  np.trackID = "" || np.trackName = ""

/-- `NowPlaying.GetInfo`. -/
def NowPlaying.GetInfo (np : NowPlaying) : String :=
  if np.trackName = "" || np.artist = "" then ""
  else np.trackName ++ " by " ++ np.artist

/-- Modelled from the spec: `NowPlaying.UpdateUnified` is called by
`MusicRepository.UpdateNowPlayingUnified` but its definition is not among the
sources; per the spec's MusicStateStore contract an update "atomically
replaces identity fields and clears lyrics, stamps update time". -/
def NowPlaying.UpdateUnified (_np : NowPlaying) (track : UnifiedTrack) (now : Nat) :
    NowPlaying :=
  { trackID := track.id, trackName := track.name, artist := track.artist,
    album := track.album, lyrics := "", updatedAt := now }

/-- `repositories.MusicRepository` (the lyrics string cache and the Genius
collaborator play no part in the update paths embedded here). -/
structure MusicRepository where
  nowPlaying : NowPlaying
  playHistory : PlayHistory
deriving DecidableEq, Repr

/-- `repositories.NewMusicRepository`: empty now-playing state and a history
bounded to the last 10 tracks. -/
def NewMusicRepository : MusicRepository :=
  { nowPlaying := NewNowPlaying, playHistory := NewPlayHistory 10 }

/-- `MusicRepository.UpdateNowPlaying`. -/
def MusicRepository.UpdateNowPlaying (r : MusicRepository) (track : SpotifyTrack)
    (now : Nat) : MusicRepository :=
  { nowPlaying := r.nowPlaying.Update track now,
    playHistory := r.playHistory.Add track now }

/-- `MusicRepository.UpdateNowPlayingUnified`. -/
def MusicRepository.UpdateNowPlayingUnified (r : MusicRepository) (track : UnifiedTrack)
    (now : Nat) : MusicRepository :=
  { nowPlaying := r.nowPlaying.UpdateUnified track now,
    playHistory := r.playHistory.AddUnified track now }

/-- Fold a sequence of `(track, time)` additions over a play history. -/
def addAllUnified (ph : PlayHistory) : List (UnifiedTrack × Nat) → PlayHistory
  | [] => ph
  | (track, now) :: rest => addAllUnified (ph.AddUnified track now) rest

/-! ## Concrete fixtures used to instantiate the theorems -/

/-- A sample unified track. -/
def trackNumb : UnifiedTrack := { id := "a1", name := "Numb", artist := "Linkin Park" }

/-- A second sample unified track. -/
def trackInTheEnd : UnifiedTrack :=
  { id := "b2", name := "In the End", artist := "Linkin Park" }

/-- A sample Spotify track. -/
def spotifySample : SpotifyTrack := { id := "s1", name := "Numb", artist := "Linkin Park" }

/-- A sample YouTube-sourced unified track. -/
def youtubeSample : UnifiedTrack := { id := "y1", name := "Faint", source := "youtube" }

/-- A sample addition sequence for the play-history theorems. -/
def sampleAdds : List (UnifiedTrack × Nat) := [(trackNumb, 1)]

/-- An alternative iteration order of the `MoodKeywords` map, with
`"lonely"` visited first — one of the orders Go's randomized map `range`
can produce. -/
def altMoodOrder : List String :=
  ["lonely", "sad", "happy", "angry", "anxious", "nostalgic", "energetic", "calm"]

/-- A lyrics provider that answers successfully. -/
def wGeniusOk : String → String → Except String String :=
  fun _ _ => Except.ok "crawling in my skin"

/-- A lyrics provider that fails on any call — used to witness that the
second lookup never reaches the provider. -/
def wGeniusFail : String → String → Except String String :=
  fun _ _ => Except.error "provider called twice"

/-- An AI collaborator whose answer is not valid JSON. -/
def wAIUnparsable : String → Except String String := fun _ => Except.ok "not json"

/-- The JSON decoder outcome for unparsable output. -/
def wParseNone : String → Option LyricsAnalysisJSON := fun _ => none

/-- The record the cache ends up holding for the sample track: the fetched
lyrics with the neutral fallback analysis. -/
def wRecord : LyricsWithMood :=
  { lyrics := "crawling in my skin",
    moodAnalysis := { primaryMood := "calm", moodScore := 1/2, emotionTags := ["uncertain"] },
    themes := ["general"] }

/-- The cache state after the first successful fetch of the sample track. -/
def wCache : MoodCache :=
  { entries := [(cacheKey "Crawling" "Linkin Park", wRecord)] }

/-- A sample per-track lyrics/mood analysis for the matcher theorems. -/
def wSongLyrics : LyricsWithMood :=
  { lyrics := "la",
    moodAnalysis := { primaryMood := "sad", moodScore := 1/2, emotionTags := ["grief"] },
    themes := ["loss"] }

/-- A per-track lookup that always succeeds with `wSongLyrics`. -/
def wAnalyze : UnifiedTrack → Option LyricsWithMood := fun _ => some wSongLyrics

/-- A sample detected user mood for the matcher theorems. -/
def wUserMood : MoodAnalysis :=
  { primaryMood := "sad", moodScore := 9/10, emotionTags := ["sorrow"] }

/-! ## Helper lemmas -/

/-- `AddUnified` always leaves the first `maxItems` of the prepended list. -/
theorem PlayHistory.AddUnified_items (ph : PlayHistory) (t : UnifiedTrack) (n : Nat) :
    (ph.AddUnified t n).items = (mkHistoryItem t n :: ph.items).take ph.maxItems := by
  unfold PlayHistory.AddUnified
  by_cases h : ph.maxItems < (mkHistoryItem t n :: ph.items).length
  · simp [h]
  · simp only [h, if_false]
    exact (List.take_of_length_le (Nat.le_of_not_lt h)).symm

theorem PlayHistory.AddUnified_maxItems (ph : PlayHistory) (t : UnifiedTrack) (n : Nat) :
    (ph.AddUnified t n).maxItems = ph.maxItems := by
  unfold PlayHistory.AddUnified; rfl

/-- Taking `m` of a list whose tail part was already truncated to `m`. -/
theorem take_append_take_eq (m : Nat) (X Y : List α) :
    (X ++ Y.take m).take m = (X ++ Y).take m := by
  rw [List.take_append_eq_append_take, List.take_append_eq_append_take,
    List.take_take, Nat.min_eq_left (Nat.sub_le m X.length)]

/-- Folding additions over a bounded history keeps the newest `maxItems`
snapshots, most recent first. -/
theorem addAllUnified_items (m : Nat) (adds : List (UnifiedTrack × Nat)) :
    ∀ ph : PlayHistory, ph.maxItems = m → ph.items.length ≤ m →
      (addAllUnified ph adds).items =
        ((adds.map (fun p => mkHistoryItem p.1 p.2)).reverse ++ ph.items).take m := by
  induction adds with
  | nil =>
    intro ph hmax hlen
    simp only [addAllUnified, List.map_nil, List.reverse_nil, List.nil_append]
    exact (List.take_of_length_le (hmax ▸ hlen)).symm
  | cons p rest ih =>
    intro ph hmax hlen
    obtain ⟨t, n⟩ := p
    have hmax' : (ph.AddUnified t n).maxItems = m := by
      rw [PlayHistory.AddUnified_maxItems]; exact hmax
    have hitems' : (ph.AddUnified t n).items =
        (mkHistoryItem t n :: ph.items).take m := by
      rw [PlayHistory.AddUnified_items, hmax]
    have hlen' : (ph.AddUnified t n).items.length ≤ m := by
      rw [hitems']; exact List.length_take_le m _
    show (addAllUnified (ph.AddUnified t n) rest).items = _
    rw [ih _ hmax' hlen', hitems', take_append_take_eq]
    simp [List.append_assoc]

/-- The items of a history built from scratch by a sequence of additions. -/
theorem addAllUnified_from_new (m : Nat) (adds : List (UnifiedTrack × Nat)) :
    (addAllUnified (NewPlayHistory m) adds).items =
      ((adds.map (fun p => mkHistoryItem p.1 p.2)).reverse).take m := by
  have h := addAllUnified_items m adds (NewPlayHistory m) rfl (by simp [NewPlayHistory])
  simpa [NewPlayHistory] using h

/-- A keyword-hit count never exceeds the keyword-list length. -/
theorem matchCount_le_length (lm : String) (keywords : List String) :
    matchCount lm keywords ≤ keywords.length :=
  List.length_filter_le _ _

/-- The Nat form of the qualification test agrees with the rational score
comparison of the source (`hits / len > 0.2` with at least one hit). -/
theorem moodQualifies_iff_score (lm mood : String) :
    moodQualifies lm mood = true ↔
      0 < matchCount lm (keywordsFor mood) ∧ moodScoreOf lm mood > 1/5 := by
  unfold moodQualifies moodScoreOf
  rw [Bool.and_eq_true, decide_eq_true_iff, decide_eq_true_iff]
  constructor
  · rintro ⟨hc, hlen⟩
    refine ⟨hc, ?_⟩
    have hpos : 0 < (keywordsFor mood).length := by
      have := matchCount_le_length lm (keywordsFor mood)
      omega
    rw [gt_iff_lt, div_lt_div_iff₀ (by norm_num) (by exact_mod_cast hpos), one_mul]
    exact_mod_cast (by omega :
      (keywordsFor mood).length < matchCount lm (keywordsFor mood) * 5)
  · rintro ⟨hc, hs⟩
    refine ⟨hc, ?_⟩
    have hpos : 0 < (keywordsFor mood).length := by
      have := matchCount_le_length lm (keywordsFor mood)
      omega
    rw [gt_iff_lt, div_lt_div_iff₀ (by norm_num) (by exact_mod_cast hpos), one_mul] at hs
    have hnat : (keywordsFor mood).length < matchCount lm (keywordsFor mood) * 5 := by
      exact_mod_cast hs
    omega

/-! ## Claim theorems -/

/-- C7: after any number of `Add` calls on a `PlayHistory` constructed with
`maxItems > 0`, the history holds at most `maxItems` entries, the most
recently added track sits at index 0, and the items are exactly the
most-recent-first snapshots of the additions with the oldest evicted. -/
theorem playHistory_bounded_most_recent_first (m : Nat) (hm : 0 < m)
    (prev : List (UnifiedTrack × Nat)) (t : UnifiedTrack) (n : Nat) :
    (addAllUnified (NewPlayHistory m) (prev ++ [(t, n)])).items.length ≤ m ∧
    (addAllUnified (NewPlayHistory m) (prev ++ [(t, n)])).items.head? =
      some (mkHistoryItem t n) ∧
    (addAllUnified (NewPlayHistory m) (prev ++ [(t, n)])).items =
      (((prev ++ [(t, n)]).map (fun p => mkHistoryItem p.1 p.2)).reverse).take m := by
  have hitems := addAllUnified_from_new m (prev ++ [(t, n)])
  refine ⟨?_, ?_, hitems⟩
  · rw [hitems]; exact List.length_take_le m _
  · rw [hitems]
    obtain ⟨k, rfl⟩ : ∃ k, m = k + 1 := ⟨m - 1, by omega⟩
    simp [List.map_append, List.reverse_append]

/-- C7 witness: two concrete additions into a history bounded to 10. -/
theorem playHistory_bounded_witness :
    (addAllUnified (NewPlayHistory 10) (sampleAdds ++ [(trackInTheEnd, 2)])).items.length ≤ 10 ∧
    (addAllUnified (NewPlayHistory 10) (sampleAdds ++ [(trackInTheEnd, 2)])).items.head? =
      some (mkHistoryItem trackInTheEnd 2) ∧
    (addAllUnified (NewPlayHistory 10) (sampleAdds ++ [(trackInTheEnd, 2)])).items =
      (((sampleAdds ++ [(trackInTheEnd, 2)]).map
          (fun p : UnifiedTrack × Nat => mkHistoryItem p.1 p.2)).reverse).take 10 :=
  playHistory_bounded_most_recent_first 10 (by decide) sampleAdds trackInTheEnd 2

/-- C8: `Update` replaces the identity fields from the track, clears the
lyrics (a subsequent `Get` sees empty lyrics even when lyrics had been set
for a previous track) and stamps the update time; `UpdateLyrics` sets only
the lyrics field, leaving the identity fields and the timestamp unchanged. -/
theorem nowPlaying_update_clears_lyrics (np : NowPlaying) (track : SpotifyTrack)
    (now : Nat) (newLyrics prevLyrics : String) :
    ((np.UpdateLyrics prevLyrics).Update track now).Get.lyrics = "" ∧
    np.Update track now =
      { trackID := track.id, trackName := track.name, artist := track.artist,
        album := track.album, lyrics := "", updatedAt := now } ∧
    np.UpdateLyrics newLyrics =
      { trackID := np.trackID, trackName := np.trackName, artist := np.artist,
        album := np.album, lyrics := newLyrics, updatedAt := np.updatedAt } := by
  refine ⟨rfl, rfl, ?_⟩
  cases np
  rfl

/-- C10: both repository update operations replace the now-playing state and
prepend the same track at the front of the play history (with the oldest
entry evicted at the bound); the now-playing state is never replaced without
the matching history entry. -/
theorem musicRepository_update_couples_history (r : MusicRepository)
    (st : SpotifyTrack) (ut : UnifiedTrack) (now : Nat)
    (h : 0 < r.playHistory.maxItems) :
    (r.UpdateNowPlaying st now).nowPlaying = r.nowPlaying.Update st now ∧
    (r.UpdateNowPlaying st now).playHistory.items =
      (mkHistoryItem (FromSpotifyTrack st) now :: r.playHistory.items).take
        r.playHistory.maxItems ∧
    (r.UpdateNowPlaying st now).playHistory.items.head? =
      some (mkHistoryItem (FromSpotifyTrack st) now) ∧
    (r.UpdateNowPlayingUnified ut now).nowPlaying = r.nowPlaying.UpdateUnified ut now ∧
    (r.UpdateNowPlayingUnified ut now).playHistory.items =
      (mkHistoryItem ut now :: r.playHistory.items).take r.playHistory.maxItems ∧
    (r.UpdateNowPlayingUnified ut now).playHistory.items.head? =
      some (mkHistoryItem ut now) := by
  obtain ⟨k, hk⟩ : ∃ k, r.playHistory.maxItems = k + 1 :=
    ⟨r.playHistory.maxItems - 1, by omega⟩
  refine ⟨rfl, ?_, ?_, rfl, ?_, ?_⟩
  · exact PlayHistory.AddUnified_items r.playHistory (FromSpotifyTrack st) now
  · rw [show (r.UpdateNowPlaying st now).playHistory = r.playHistory.Add st now from rfl,
      PlayHistory.Add, PlayHistory.AddUnified_items, hk]
    simp
  · exact PlayHistory.AddUnified_items r.playHistory ut now
  · rw [show (r.UpdateNowPlayingUnified ut now).playHistory =
        r.playHistory.AddUnified ut now from rfl,
      PlayHistory.AddUnified_items, hk]
    simp

/-- C10 witness: the two update operations on a freshly constructed
repository. -/
theorem musicRepository_update_couples_witness :
    (NewMusicRepository.UpdateNowPlaying spotifySample 5).nowPlaying =
      NewMusicRepository.nowPlaying.Update spotifySample 5 ∧
    (NewMusicRepository.UpdateNowPlaying spotifySample 5).playHistory.items =
      (mkHistoryItem (FromSpotifyTrack spotifySample) 5 ::
        NewMusicRepository.playHistory.items).take NewMusicRepository.playHistory.maxItems ∧
    (NewMusicRepository.UpdateNowPlaying spotifySample 5).playHistory.items.head? =
      some (mkHistoryItem (FromSpotifyTrack spotifySample) 5) ∧
    (NewMusicRepository.UpdateNowPlayingUnified youtubeSample 5).nowPlaying =
      NewMusicRepository.nowPlaying.UpdateUnified youtubeSample 5 ∧
    (NewMusicRepository.UpdateNowPlayingUnified youtubeSample 5).playHistory.items =
      (mkHistoryItem youtubeSample 5 ::
        NewMusicRepository.playHistory.items).take NewMusicRepository.playHistory.maxItems ∧
    (NewMusicRepository.UpdateNowPlayingUnified youtubeSample 5).playHistory.items.head? =
      some (mkHistoryItem youtubeSample 5) :=
  musicRepository_update_couples_history NewMusicRepository spotifySample youtubeSample 5
    (by decide)

/-- C1 counterexample: the query `"i feel sad lyrics"` contains `"lyric"` and
matches no song-request pattern, yet the dispatch routes it to the mood
handler, not the lyrics handler, because the emotional-content stage is
checked first. -/
theorem lyricQuery_with_emotion_routed_to_mood :
    strContains (strToLower "i feel sad lyrics") "lyric" = true ∧
    isSongRequestQuery "i feel sad lyrics" = false ∧
    containsEmotionalContent "i feel sad lyrics" = true ∧
    classifyQuery "i feel sad lyrics" = Intent.moodQuery ∧
    Intent.moodQuery ≠ Intent.lyricsQuery := by
  refine ⟨by decide, by decide, by decide, by decide, by decide⟩

/-- C1 (amended): a query containing `"lyric"` that matches no song-request
pattern is classified as a lyrics query provided it also carries no
emotional-content keyword with a personal indicator; when such emotional
content is present, the mood stage takes precedence. -/
theorem lyrics_classification_without_emotion (q : String)
    (hs : isSongRequestQuery q = false)
    (he : containsEmotionalContent q = false)
    (hl : strContains (strToLower q) "lyric" = true) :
    classifyQuery q = Intent.lyricsQuery := by
  simp [classifyQuery, isLyricsRelatedQuery, hs, he, hl]

/-- C1 witness: a lyrics question without emotional content. -/
theorem lyrics_classification_witness :
    classifyQuery "what do these lyrics mean" = Intent.lyricsQuery :=
  lyrics_classification_without_emotion "what do these lyrics mean"
    (by decide) (by decide) (by decide)

/-- C2 counterexample: when the AI collaborator itself fails,
`DetectMood` returns an error to the caller instead of degrading to the
keyword fallback. -/
theorem detectMood_propagates_ai_failure :
    DetectMood (fun _ => Except.error "connection refused") (fun _ => none)
        moodNames "i am feeling sad" =
      Except.error "failed to detect mood: connection refused" := by
  rfl

/-- C2 (amended): `DetectMood` degrades to the deterministic keyword
fallback only when the AI collaborator returns unparsable output; when the
collaborator succeeds with parsable output that analysis is returned, and
when the collaborator fails the error is propagated to the caller. -/
theorem detectMood_degrades_only_on_parse_failure
    (ai : String → Except String String) (parseMood : String → Option MoodAnalysis)
    (order : List String) (message : String) :
    (∀ e, ai (moodDetectionPrompt message) = Except.error e →
      DetectMood ai parseMood order message =
        Except.error ("failed to detect mood: " ++ e)) ∧
    (∀ r, ai (moodDetectionPrompt message) = Except.ok r → parseMood r = none →
      DetectMood ai parseMood order message =
        Except.ok (fallbackMoodDetection order message)) ∧
    (∀ r m, ai (moodDetectionPrompt message) = Except.ok r → parseMood r = some m →
      DetectMood ai parseMood order message = Except.ok m) := by
  refine ⟨?_, ?_, ?_⟩
  · intro e he; simp [DetectMood, he]
  · intro r hr hp; simp [DetectMood, hr, hp]
  · intro r m hr hp; simp [DetectMood, hr, hp]

/-- C2 witness: an AI collaborator that answers with unparsable output makes
`DetectMood` return the keyword fallback without an error. -/
theorem detectMood_degrades_witness :
    DetectMood (fun _ => Except.ok "not json") (fun _ => none) moodNames "hello" =
      Except.ok (fallbackMoodDetection moodNames "hello") :=
  (detectMood_degrades_only_on_parse_failure (fun _ => Except.ok "not json")
    (fun _ => none) moodNames "hello").2.1 "not json" rfl rfl

/-- C6 counterexample: extraction works on the lower-cased query, so
`"play a sad song by Adele"` yields artist `"adele"`, not `"Adele"` as the
claim states. -/
theorem extractSongRequest_adele_lowercased :
    extractSongRequest "play a sad song by Adele" = ("a sad song", "adele") ∧
    ("adele" : String) ≠ "Adele" := by
  refine ⟨by decide, by decide⟩

/-- C6 (amended): every query matching a song-request pattern is dispatched
to the song-request handler regardless of co-occurring mood or lyrics
keywords, and extraction applies the `" by "` split and prefix-strip rule to
the lower-cased query; `"play a sad song by Adele"` yields a `song_request`
response with song `"a sad song"` and artist `"adele"`. -/
theorem songRequest_precedence_and_extraction
    (hMood hLyrics hGeneral : String → ChatResponse) (q : String)
    (hq : isSongRequestQuery q = true) :
    processChatRequest hMood hLyrics hGeneral q = handleSongRequest q ∧
    (processChatRequest hMood hLyrics hGeneral q).type = "song_request" ∧
    (processChatRequest hMood hLyrics hGeneral "play a sad song by Adele").songQuery =
      some { query := "a sad song", artist := "adele" } := by
  have h1 : processChatRequest hMood hLyrics hGeneral q = handleSongRequest q := by
    simp [processChatRequest, hq]
  have h2 : processChatRequest hMood hLyrics hGeneral "play a sad song by Adele" =
      handleSongRequest "play a sad song by Adele" := by
    simp [processChatRequest, show isSongRequestQuery "play a sad song by Adele" = true
      from by decide]
  refine ⟨h1, by rw [h1]; rfl, by rw [h2]; decide⟩

/-- C6 witness: the concrete Adele query, with precedence over the
co-occurring mood keyword `"sad"`. -/
theorem songRequest_precedence_witness :
    processChatRequest (fun _ => {}) (fun _ => {}) (fun _ => {})
        "play a sad song by Adele" = handleSongRequest "play a sad song by Adele" ∧
    (processChatRequest (fun _ => {}) (fun _ => {}) (fun _ => {})
        "play a sad song by Adele").type = "song_request" ∧
    (processChatRequest (fun _ => {}) (fun _ => {}) (fun _ => {})
        "play a sad song by Adele").songQuery =
      some { query := "a sad song", artist := "adele" } :=
  songRequest_precedence_and_extraction (fun _ => {}) (fun _ => {}) (fun _ => {})
    "play a sad song by Adele" (by decide)

/-- C3 counterexample: with the message
`"cry tears hurt alone empty belong disconnected"` both `"sad"` and
`"lonely"` gather qualifying scores, so two legitimate iteration orders of
the keyword map return different moods — the fallback is not deterministic
across repeated calls. -/
theorem fallback_depends_on_iteration_order :
    altMoodOrder.Perm moodNames ∧
    (fallbackMoodDetection moodNames
        "cry tears hurt alone empty belong disconnected").primaryMood = "sad" ∧
    (fallbackMoodDetection altMoodOrder
        "cry tears hurt alone empty belong disconnected").primaryMood = "lonely" ∧
    ("sad" : String) ≠ "lonely" := by
  refine ⟨by decide, ?_, ?_, by decide⟩
  · unfold fallbackMoodDetection
    rw [show moodNames.find?
        (fun mood => moodQualifies (strToLower "cry tears hurt alone empty belong disconnected") mood) =
        some "sad" from by decide]
  · unfold fallbackMoodDetection
    rw [show altMoodOrder.find?
        (fun mood => moodQualifies (strToLower "cry tears hurt alone empty belong disconnected") mood) =
        some "lonely" from by decide]

/-- C3 (amended): the keyword fallback is deterministic up to the map
iteration order — for any two iteration orders of the mood table, the same
input yields the same `(mood, score, tags)` tuple whenever at most one mood
qualifies; with several qualifying moods the result depends on the order. -/
theorem fallback_deterministic_of_unique_qualifier
    (o1 o2 : List String) (message : String)
    (h1 : o1.Perm moodNames) (h2 : o2.Perm moodNames)
    (huniq : ∀ m1 ∈ moodNames, ∀ m2 ∈ moodNames,
      moodQualifies (strToLower message) m1 = true →
      moodQualifies (strToLower message) m2 = true → m1 = m2) :
    fallbackMoodDetection o1 message = fallbackMoodDetection o2 message := by
  unfold fallbackMoodDetection
  cases hf1 : o1.find? (fun mood => moodQualifies (strToLower message) mood) with
  | none =>
    have hnone : ∀ x ∈ o2, ¬ (moodQualifies (strToLower message) x = true) := by
      intro x hx
      exact List.find?_eq_none.mp hf1 x ((h2.trans h1.symm).mem_iff.mp hx)
    rw [List.find?_eq_none.mpr hnone]
  | some m =>
    have hqm : moodQualifies (strToLower message) m = true := List.find?_some hf1
    have hmN : m ∈ moodNames := h1.mem_iff.mp (List.mem_of_find?_eq_some hf1)
    cases hf2 : o2.find? (fun mood => moodQualifies (strToLower message) mood) with
    | none =>
      exact absurd hqm (List.find?_eq_none.mp hf2 m (h2.mem_iff.mpr hmN))
    | some m2 =>
      have hqm2 : moodQualifies (strToLower message) m2 = true := List.find?_some hf2
      have hm2N : m2 ∈ moodNames := h2.mem_iff.mp (List.mem_of_find?_eq_some hf2)
      rw [huniq m2 hm2N m hmN hqm2 hqm]

/-- C3 witness: on a message where only `"sad"` qualifies, the canonical
order and the lonely-first order agree. -/
theorem fallback_deterministic_witness :
    fallbackMoodDetection moodNames "cry tears pain" =
      fallbackMoodDetection altMoodOrder "cry tears pain" :=
  fallback_deterministic_of_unique_qualifier moodNames altMoodOrder "cry tears pain"
    (List.Perm.refl moodNames) (by decide) (by decide)

/-- C4 counterexample: on `"cry tears broken alone nobody"` the mood
`"sad"` qualifies with score `2/5`, yet under the lonely-first iteration
order the fallback returns `"lonely"` with the smaller score `2/9` — it
returns the first qualifying mood in iteration order, not the one with the
highest score. -/
theorem fallback_not_highest_score :
    altMoodOrder.Perm moodNames ∧
    fallbackMoodDetection altMoodOrder "cry tears broken alone nobody" =
      { primaryMood := "lonely", moodScore := 2/9,
        emotionTags := ["isolated", "disconnected", "yearning", "longing"] } ∧
    moodQualifies (strToLower "cry tears broken alone nobody") "sad" = true ∧
    moodScoreOf (strToLower "cry tears broken alone nobody") "sad" = 2/5 ∧
    (2/9 : ℚ) < 2/5 := by
  refine ⟨by decide, ?_, by decide, ?_, by norm_num⟩
  · unfold fallbackMoodDetection
    rw [show altMoodOrder.find?
        (fun mood => moodQualifies (strToLower "cry tears broken alone nobody") mood) =
        some "lonely" from by decide]
    show ({ primaryMood := "lonely",
            moodScore := moodScoreOf (strToLower "cry tears broken alone nobody") "lonely",
            emotionTags := relatedFor "lonely" } : MoodAnalysis) = _
    have hs : moodScoreOf (strToLower "cry tears broken alone nobody") "lonely" = 2/9 := by
      unfold moodScoreOf
      rw [show matchCount (strToLower "cry tears broken alone nobody")
            (keywordsFor "lonely") = 2 from by decide,
          show (keywordsFor "lonely").length = 9 from by decide]
      norm_num
    rw [hs, show relatedFor "lonely" =
        ["isolated", "disconnected", "yearning", "longing"] from by decide]
  · unfold moodScoreOf
    rw [show matchCount (strToLower "cry tears broken alone nobody")
          (keywordsFor "sad") = 4 from by decide,
        show (keywordsFor "sad").length = 10 from by decide]
    norm_num

/-- C4 (amended): the keyword fallback counts hits per mood and computes
`score = hits / |keywords|`, but returns the *first* mood in iteration order
with nonzero hits and score above `0.2` (not necessarily the
highest-scoring one), with that score and the mood's related-mood tags; when
no mood clears the bar it returns `calm` with score `0.3` and tags
`{neutral, uncertain}`. -/
theorem fallback_first_qualifying_characterization (order : List String)
    (message : String) :
    (fallbackMoodDetection order message = neutralFallback ∧
      ∀ m ∈ order, moodQualifies (strToLower message) m = false) ∨
    (∃ pre m post, order = pre ++ m :: post ∧
      (∀ x ∈ pre, moodQualifies (strToLower message) x = false) ∧
      moodQualifies (strToLower message) m = true ∧
      fallbackMoodDetection order message =
        { primaryMood := m, moodScore := moodScoreOf (strToLower message) m,
          emotionTags := relatedFor m }) := by
  induction order with
  | nil => exact Or.inl ⟨rfl, by simp⟩
  | cons a rest ih =>
    by_cases ha : moodQualifies (strToLower message) a = true
    · refine Or.inr ⟨[], a, rest, rfl, by simp, ha, ?_⟩
      unfold fallbackMoodDetection
      rw [List.find?_cons_of_pos _ ha]
    · have hstep : fallbackMoodDetection (a :: rest) message =
          fallbackMoodDetection rest message := by
        unfold fallbackMoodDetection
        rw [List.find?_cons_of_neg _ ha]
      rcases ih with ⟨hneu, hall⟩ | ⟨pre, m, post, heq, hpre, hq, hres⟩
      · refine Or.inl ⟨hstep.trans hneu, ?_⟩
        intro x hx
        rcases List.mem_cons.mp hx with rfl | hx
        · exact Bool.not_eq_true _ ▸ ha
        · exact hall x hx
      · refine Or.inr ⟨a :: pre, m, post, by rw [heq]; rfl, ?_, hq, hstep.trans hres⟩
        intro x hx
        rcases List.mem_cons.mp hx with rfl | hx
        · exact Bool.not_eq_true _ ▸ ha
        · exact hpre x hx

/-- Every successful `GetLyricsWithMood` call leaves its record in the
returned cache under the lower-cased `"<name>-<artist>"` key. -/
theorem GetLyricsWithMood_success_caches
    (genius : String → String → Except String String)
    (ai : String → Except String String)
    (parseAnalysis : String → Option LyricsAnalysisJSON)
    (cache : MoodCache) (n a : String) (rec : LyricsWithMood)
    (cache' : MoodCache) (flag : Bool)
    (h : GetLyricsWithMood genius ai parseAnalysis cache n a =
      (Except.ok rec, cache', flag)) :
    cache'.entries.lookup (cacheKey n a) = some rec := by
  unfold GetLyricsWithMood at h
  cases hl : cache.entries.lookup (cacheKey n a) with
  | some cached =>
    simp only [hl, Prod.mk.injEq, Except.ok.injEq] at h
    obtain ⟨rfl, rfl, -⟩ := h
    exact hl
  | none =>
    cases hg : genius n a with
    | error e => simp [hl, hg] at h
    | ok lyrics =>
      cases hai : ai (lyricsAnalysisPrompt lyrics) with
      | error e => simp [hl, hg, hai] at h
      | ok response =>
        simp only [hl, hg, hai, Prod.mk.injEq, Except.ok.injEq] at h
        obtain ⟨hrec, hcache, -⟩ := h
        rw [← hcache]
        simp [List.lookup, hrec]

/-- C9: after one successful `GetLyricsWithMood` call for a
`(trackName, artist)` pair, a second call whose pair yields the same
lower-cased `"<name>-<artist>"` key returns the cached record, leaves the
cache unchanged and does not invoke the lyrics provider (whatever
collaborators the second call is wired to). -/
theorem getLyricsWithMood_idempotent
    (genius genius2 : String → String → Except String String)
    (ai ai2 : String → Except String String)
    (parseAnalysis parseAnalysis2 : String → Option LyricsAnalysisJSON)
    (cache : MoodCache) (n a : String) (rec : LyricsWithMood)
    (cache' : MoodCache) (flag : Bool) (n2 a2 : String)
    (h : GetLyricsWithMood genius ai parseAnalysis cache n a =
      (Except.ok rec, cache', flag))
    (hkey : cacheKey n2 a2 = cacheKey n a) :
    GetLyricsWithMood genius2 ai2 parseAnalysis2 cache' n2 a2 =
      (Except.ok rec, cache', false) := by
  have hc := GetLyricsWithMood_success_caches genius ai parseAnalysis cache n a rec
    cache' flag h
  unfold GetLyricsWithMood
  rw [hkey, hc]

/-- C9 witness: after a first fetch of `("Crawling", "Linkin Park")`, the
second call — differing in case and wired to a provider that errors on any
call — returns the first cached record, not an error. -/
theorem getLyricsWithMood_idempotent_witness :
    GetLyricsWithMood wGeniusFail wAIUnparsable wParseNone wCache
        "crawling" "LINKIN PARK" = (Except.ok wRecord, wCache, false) :=
  getLyricsWithMood_idempotent wGeniusOk wGeniusFail wAIUnparsable wAIUnparsable
    wParseNone wParseNone { entries := [] } "Crawling" "Linkin Park" wRecord wCache
    true "crawling" "LINKIN PARK" rfl (by decide)

/-- A swap step never introduces elements into the recommendation array. -/
theorem mem_swapIfGreater (a : Array MoodBasedRecommendation) (i j : Nat)
    (x : MoodBasedRecommendation) (hx : x ∈ (swapIfGreater a i j).toList) :
    x ∈ a.toList := by
  unfold swapIfGreater at hx
  split at hx
  · rename_i h
    split at hx
    · rw [Array.toList_swap] at hx
      rcases List.mem_or_eq_of_mem_set hx with hx1 | rfl
      · rcases List.mem_or_eq_of_mem_set hx1 with hx2 | rfl
        · exact hx2
        · simpa using Array.getElem_mem_toList a h.2
      · simpa using Array.getElem_mem_toList a h.1
    · exact hx
  · exact hx

/-- The inner bubble loop never introduces elements. -/
theorem bubbleInner_subset (i n : Nat) (j : Nat) (a : Array MoodBasedRecommendation)
    (x : MoodBasedRecommendation) (hx : x ∈ (bubbleInner i n j a).toList) :
    x ∈ a.toList := by
  have H : ∀ fuel jj aa, n - jj = fuel → x ∈ (bubbleInner i n jj aa).toList →
      x ∈ aa.toList := by
    intro fuel
    induction fuel with
    | zero =>
      intro jj aa hfe hxx
      rw [bubbleInner] at hxx
      rw [if_neg (by omega : ¬ jj < n)] at hxx
      exact hxx
    | succ k ih =>
      intro jj aa hfe hxx
      rw [bubbleInner] at hxx
      by_cases hj : jj < n
      · rw [if_pos hj] at hxx
        exact mem_swapIfGreater aa i jj x (ih (jj + 1) _ (by omega) hxx)
      · rw [if_neg hj] at hxx
        exact hxx
  exact H (n - j) j a rfl hx

/-- The outer bubble loop never introduces elements. -/
theorem bubbleOuter_subset (n : Nat) (i : Nat) (a : Array MoodBasedRecommendation)
    (x : MoodBasedRecommendation) (hx : x ∈ (bubbleOuter n i a).toList) :
    x ∈ a.toList := by
  have H : ∀ fuel ii aa, n - ii = fuel → x ∈ (bubbleOuter n ii aa).toList →
      x ∈ aa.toList := by
    intro fuel
    induction fuel with
    | zero =>
      intro ii aa hfe hxx
      rw [bubbleOuter] at hxx
      rw [if_neg (by omega : ¬ ii < n)] at hxx
      exact hxx
    | succ k ih =>
      intro ii aa hfe hxx
      rw [bubbleOuter] at hxx
      by_cases hi : ii < n
      · rw [if_pos hi] at hxx
        exact bubbleInner_subset ii n (ii + 1) aa x (ih (ii + 1) _ (by omega) hxx)
      · rw [if_neg hi] at hxx
        exact hxx
  exact H (n - i) i a rfl hx

/-- The sort is a rearrangement: every output element was an input element. -/
theorem sortRecommendations_subset (recs : List MoodBasedRecommendation)
    (x : MoodBasedRecommendation) (hx : x ∈ sortRecommendations recs) : x ∈ recs := by
  unfold sortRecommendations at hx
  simpa using bubbleOuter_subset recs.length 0 (Array.mk recs) x hx

/-- Everything the gathering loop adds to the accumulator is a qualifying
match scored by `calculateMoodMatch` against its own track's analysis. -/
theorem gather_mem (analyze : UnifiedTrack → Option LyricsWithMood)
    (userMood : MoodAnalysis) (limit : Nat) :
    ∀ (tracks : List UnifiedTrack) (acc : List MoodBasedRecommendation)
      (r : MoodBasedRecommendation),
      r ∈ gatherRecommendations analyze userMood limit tracks acc →
      r ∈ acc ∨ ∃ ld, analyze r.track = some ld ∧
        calculateMoodMatch userMood ld.moodAnalysis > 1/2 ∧
        r.moodScore = calculateMoodMatch userMood ld.moodAnalysis := by
  intro tracks
  induction tracks with
  | nil =>
    intro acc r h
    left
    simpa [gatherRecommendations] using h
  | cons t rest ih =>
    intro acc r h
    rw [gatherRecommendations] at h
    by_cases hlim : limit ≤ acc.length
    · rw [if_pos hlim] at h
      left; exact h
    · rw [if_neg hlim] at h
      rcases ih _ r h with hacc | hex
      · cases hat : analyze t with
        | none =>
          simp only [hat] at hacc
          left; exact hacc
        | some ld =>
          simp only [hat] at hacc
          by_cases hsc : calculateMoodMatch userMood ld.moodAnalysis > 1/2
          · rw [if_pos hsc] at hacc
            rcases List.mem_append.mp hacc with h1 | h2
            · left; exact h1
            · right
              have hr := List.mem_singleton.mp h2
              subst hr
              exact ⟨ld, by simpa using hat, hsc, rfl⟩
          · rw [if_neg hsc] at hacc
            left; exact hacc
      · right; exact hex

/-- With a duplicate-free song tag list the pair count is bounded by the
number of user tags. -/
theorem tagOverlapCount_le (userTags songTags : List String)
    (hnd : songTags.Nodup) : tagOverlapCount userTags songTags ≤ userTags.length := by
  unfold tagOverlapCount
  induction userTags with
  | nil => simp
  | cons u rest ih =>
    simp only [List.map_cons, List.sum_cons, List.length_cons]
    have h1 : songTags.count u ≤ 1 := List.nodup_iff_count_le_one.mp hnd u
    omega

/-- `calculateMoodMatch` stays within `[0, 1]` for a well-formed song
analysis, and lands in `[0.9, 1]` on an identical primary mood. -/
theorem calculateMoodMatch_bounds (u s : MoodAnalysis)
    (h0 : 0 ≤ s.moodScore) (h1 : s.moodScore ≤ 1) (hnd : s.emotionTags.Nodup) :
    0 ≤ calculateMoodMatch u s ∧ calculateMoodMatch u s ≤ 1 ∧
      (u.primaryMood = s.primaryMood → 9/10 ≤ calculateMoodMatch u s) := by
  unfold calculateMoodMatch
  by_cases heq : u.primaryMood = s.primaryMood
  · rw [if_pos heq]
    exact ⟨by linarith, by linarith, fun _ => by linarith⟩
  · rw [if_neg heq]
    by_cases hrel : (relatedFor u.primaryMood).contains s.primaryMood = true
    · rw [if_pos hrel]
      exact ⟨by linarith, by linarith, fun h => absurd h heq⟩
    · rw [if_neg hrel]
      by_cases hov : tagOverlapCount u.emotionTags s.emotionTags > 0
      · rw [if_pos hov]
        have hc : tagOverlapCount u.emotionTags s.emotionTags ≤ u.emotionTags.length :=
          tagOverlapCount_le _ _ hnd
        have hne : u.emotionTags ≠ [] := by
          intro hnil
          rw [hnil] at hov
          simp [tagOverlapCount] at hov
        have hL : (0 : ℚ) < u.emotionTags.length := by
          exact_mod_cast List.length_pos.mpr hne
        have hdiv1 : (tagOverlapCount u.emotionTags s.emotionTags : ℚ) /
            (u.emotionTags.length : ℚ) ≤ 1 := by
          rw [div_le_one hL]
          exact_mod_cast hc
        have hdiv0 : (0 : ℚ) ≤ (tagOverlapCount u.emotionTags s.emotionTags : ℚ) /
            (u.emotionTags.length : ℚ) := by positivity
        exact ⟨by linarith, by linarith, fun h => absurd h heq⟩
      · rw [if_neg hov]
        exact ⟨by norm_num, by norm_num, fun h => absurd h heq⟩

/-- C5: for every detected mood, candidate list and limit, the matcher
returns at most `limit` recommendations, every returned score lies in
`[0, 1]`, and a recommendation whose song analysis carries the query's
primary mood scores in `[0.9, 1]` — provided each analysis the collaborator
hands back is well-formed (score in `[0, 1]`, duplicate-free tag set), as
the data model requires. -/
theorem matchSongsToMood_bounds (analyze : UnifiedTrack → Option LyricsWithMood)
    (userMood : MoodAnalysis) (userTracks : List UnifiedTrack) (limit : Nat)
    (hwf : ∀ t ld, analyze t = some ld →
      0 ≤ ld.moodAnalysis.moodScore ∧ ld.moodAnalysis.moodScore ≤ 1 ∧
        ld.moodAnalysis.emotionTags.Nodup) :
    (MatchSongsToMood analyze userMood userTracks limit).length ≤ limit ∧
    ∀ r ∈ MatchSongsToMood analyze userMood userTracks limit,
      (0 ≤ r.moodScore ∧ r.moodScore ≤ 1) ∧
      ∀ ld, analyze r.track = some ld →
        ld.moodAnalysis.primaryMood = userMood.primaryMood →
        9/10 ≤ r.moodScore ∧ r.moodScore ≤ 1 := by
  have hbody : MatchSongsToMood analyze userMood userTracks limit =
      (if limit <
          (sortRecommendations
            (gatherRecommendations analyze userMood limit userTracks [])).length
        then (sortRecommendations
            (gatherRecommendations analyze userMood limit userTracks [])).take limit
        else sortRecommendations
            (gatherRecommendations analyze userMood limit userTracks [])) := rfl
  constructor
  · rw [hbody]
    split
    · exact List.length_take_le _ _
    · next hns => omega
  · intro r hr
    have hsorted : r ∈ sortRecommendations
        (gatherRecommendations analyze userMood limit userTracks []) := by
      rw [hbody] at hr
      split at hr
      · exact List.mem_of_mem_take hr
      · exact hr
    have hgather := sortRecommendations_subset _ r hsorted
    rcases gather_mem analyze userMood limit userTracks [] r hgather with hacc | hex
    · simp at hacc
    · obtain ⟨ld, hld, hsc, hscore⟩ := hex
      obtain ⟨hw0, hw1, hwnd⟩ := hwf r.track ld hld
      have hb := calculateMoodMatch_bounds userMood ld.moodAnalysis hw0 hw1 hwnd
      refine ⟨⟨by rw [hscore]; exact hb.1, by rw [hscore]; exact hb.2.1⟩, ?_⟩
      intro ld2 hld2 hmood
      have hldeq : ld2 = ld := by
        have := hld2.symm.trans hld
        exact (Option.some.injEq _ _).mp this
      subst hldeq
      refine ⟨?_, by rw [hscore]; exact hb.2.1⟩
      rw [hscore]
      exact hb.2.2 hmood.symm

/-- C5 witness: a single identical-mood candidate with a well-formed
analysis against limit 5. -/
theorem matchSongsToMood_bounds_witness :
    (MatchSongsToMood wAnalyze wUserMood [trackNumb] 5).length ≤ 5 ∧
    ∀ r ∈ MatchSongsToMood wAnalyze wUserMood [trackNumb] 5,
      (0 ≤ r.moodScore ∧ r.moodScore ≤ 1) ∧
      ∀ ld, wAnalyze r.track = some ld →
        ld.moodAnalysis.primaryMood = wUserMood.primaryMood →
        9/10 ≤ r.moodScore ∧ r.moodScore ≤ 1 :=
  matchSongsToMood_bounds wAnalyze wUserMood [trackNumb] 5
    (by
      intro t ld h
      have hld : wSongLyrics = ld := by
        simpa [wAnalyze] using h
      rw [← hld]
      refine ⟨by norm_num [wSongLyrics], by norm_num [wSongLyrics], by simp [wSongLyrics]⟩)

end LinkinSync
